import Mathlib

/-!
Shallow embedding of `src/src/python/pyeclib/core.py` (pyeclib driver layer):
the generic erasure-coded driver `ECPyECLibDriver` (control flow around an
opaque codec engine), and the pure striping driver `ECStripingDriver`.

Byte buffers are modelled as `List Nat`; Python integer arithmetic is exact
(`math.ceil(L / float(k))` is modelled as the exact integer ceiling
`(L + k - 1) / k`); Python slice bounds (which may be negative, meaning
offsets from the end, and are clamped to the valid range) are modelled by
`pySlice` over `Int` bounds; exceptions are modelled with `Except`.
-/

/-- A byte buffer (the payload of one fragment, or a whole object). -/
abbrev Buf := List Nat

/-- Resolve one Python slice bound against a sequence of length `n`:
a negative bound counts from the end, and the result is clamped to `[0, n]`. -/
def pySliceIdx (n : Nat) (i : Int) : Nat :=
  if i < 0 then ((n : Int) + i).toNat else min i.toNat n

/-- Python slice `s[a:b]` for `Int` bounds `a`, `b` (no step). -/
def pySlice {α : Type} (s : List α) (a b : Int) : List α :=
  (s.take (pySliceIdx s.length b)).drop (pySliceIdx s.length a)

/-- `ECStripingDriver.__init__(k, m)` from `core.py`: stores `k`, raises
`ECPyECLibException("This driver only supports m=0")` when `m != 0`,
otherwise stores `m`.  The driver state is the pair `(k, m)`. -/
def ECStripingDriver.init (k m : Nat) : Except String (Nat × Nat) :=
  if m ≠ 0 then Except.error "This driver only supports m=0"
  else Except.ok (k, m)

/-- `ECStripingDriver.encode(data_bytes)` from `core.py`, literally:
`fragment_size = ceil(L / k)`;
`last_fragment_size = L - (fragment_size * k - 1)`;
the loop appends `data_bytes[offset:fragment_size]` (sic: the upper slice
bound is `fragment_size`, not `offset + fragment_size`) and advances
`offset` by `fragment_size`, `k - 1` times; finally it appends
`data_bytes[offset:last_fragment_size]` (sic: `last_fragment_size` is used
as a slice endpoint, not a length). -/
def ECStripingDriver.encode (k : Nat) (data_bytes : Buf) : List Buf :=
  let fragment_size : Nat := (data_bytes.length + k - 1) / k
  let last_fragment_size : Int :=
    (data_bytes.length : Int) - ((fragment_size : Int) * (k : Int) - 1)
  let step := (List.range (k - 1)).foldl
    (fun (acc : List Buf × Nat) _ =>
      (acc.1 ++ [pySlice data_bytes (acc.2 : Int) (fragment_size : Int)],
       acc.2 + fragment_size))
    ([], 0)
  step.1 ++ [pySlice data_bytes (step.2 : Int) last_fragment_size]

/-- `ECStripingDriver.decode(fragment_payloads)` from `core.py`: raises when
the fragment count differs from `k` — with the two counts interpolated in the
order the source passes them, `(len(fragment_payloads), self.k)` — and
otherwise concatenates the fragments in order. -/
def ECStripingDriver.decode (k : Nat) (fragment_payloads : List Buf) :
    Except String Buf :=
  if fragment_payloads.length ≠ k then
    Except.error ("Decode requires " ++ toString fragment_payloads.length ++
      " fragments, " ++ toString k ++ " fragments were given")
  else
    Except.ok (fragment_payloads.foldl (fun acc f => acc ++ f) [])

/-- `ECStripingDriver.reconstruct(available_fragment_payloads,
missing_fragment_indexes)` from `core.py`: raises when the available count
differs from `k`, otherwise returns the available fragment list itself. -/
def ECStripingDriver.reconstruct (k : Nat) (available_fragment_payloads : List Buf)
    (missing_fragment_indexes : List Nat) : Except String (List Buf) :=
  if available_fragment_payloads.length ≠ k then
    Except.error ("Reconstruction requires " ++
      toString available_fragment_payloads.length ++ " fragments, " ++
      toString k ++ " fragments given")
  else
    Except.ok available_fragment_payloads

/-- `ECStripingDriver.fragments_needed(missing_fragment_indexes)` from
`core.py`: returns its argument unchanged. -/
def ECStripingDriver.fragments_needed (missing_fragment_indexes : List Nat) :
    List Nat :=
  missing_fragment_indexes

/-- A Python exception, as seen by a caller of the driver: either an
`ECPyECLibException` carrying its message string, an exception raised by the
`pyeclib_c` codec engine that propagated unwrapped (carrying the engine's
own error value of type `E`), or an `IndexError` from `data_frags[0]` on an
empty list. -/
inductive PyExn (E : Type) where
  | ec : String → PyExn E
  | engine : E → PyExn E
  | indexError : PyExn E
deriving DecidableEq

/-- The opaque `pyeclib_c` codec engine as the driver consumes it, with the
driver's handle already applied.  Each primitive may raise an engine
exception (error type `E`).  `fragments_to_string` may also return the
needs-reconstruction sentinel `None`, modelled as `Option`. -/
structure Engine (E : Type) where
  fragments_to_string : List Buf → Except E (Option Buf)
  get_fragment_partition : List Buf → Except E (List Buf × List Buf × List Nat)
  decode : List Buf → List Buf → List Nat → Nat → Except E (List Buf)
  reconstruct : List Buf → List Buf → List Nat → Nat → Nat → Except E Buf

/-- One call into the codec engine, with the arguments it was given; the
driver's executions are instrumented with a list of these so that theorems
can speak about which primitives were invoked and on what. -/
inductive EngineCall where
  | fragmentsToString : List Buf → EngineCall
  | getFragmentPartition : List Buf → EngineCall
  | bulkDecode : List Buf → List Buf → List Nat → Nat → EngineCall
  | singleReconstruct : List Buf → List Buf → List Nat → Nat → Nat → EngineCall
deriving DecidableEq

/-- `ECPyECLibDriver.decode(fragment_payloads)` from `core.py`, instrumented
with the list of engine calls it makes.  Only the first
`fragments_to_string` call sits inside the `try`/`except` that re-raises as
`ECPyECLibException("Error in ECPyECLibDriver.decode")`; when it returns the
sentinel `None` the driver partitions, bulk-decodes (passing
`len(data_frags[0])`, an `IndexError` when `data_frags` is empty) and
reassembles, all outside the `try`, so exceptions there propagate as-is. -/
def ECPyECLibDriver.decode {E : Type} (eng : Engine E)
    (fragment_payloads : List Buf) :
    Except (PyExn E) (Option Buf) × List EngineCall :=
  match eng.fragments_to_string fragment_payloads with
  | Except.error _ =>
      (Except.error (PyExn.ec "Error in ECPyECLibDriver.decode"),
       [EngineCall.fragmentsToString fragment_payloads])
  | Except.ok (some ret_string) =>
      (Except.ok (some ret_string),
       [EngineCall.fragmentsToString fragment_payloads])
  | Except.ok none =>
      let tr0 := [EngineCall.fragmentsToString fragment_payloads,
                  EngineCall.getFragmentPartition fragment_payloads]
      match eng.get_fragment_partition fragment_payloads with
      | Except.error e => (Except.error (PyExn.engine e), tr0)
      | Except.ok (data_frags, parity_frags, missing_idxs) =>
          match data_frags.head? with
          | none => (Except.error PyExn.indexError, tr0)
          | some d0 =>
              let tr1 := tr0 ++
                [EngineCall.bulkDecode data_frags parity_frags missing_idxs d0.length]
              match eng.decode data_frags parity_frags missing_idxs d0.length with
              | Except.error e => (Except.error (PyExn.engine e), tr1)
              | Except.ok decoded_fragments =>
                  let tr2 := tr1 ++
                    [EngineCall.fragmentsToString decoded_fragments]
                  match eng.fragments_to_string decoded_fragments with
                  | Except.error e => (Except.error (PyExn.engine e), tr2)
                  | Except.ok r => (Except.ok r, tr2)

/-- The `while` loop of `ECPyECLibDriver.reconstruct`: pop the next target
index, re-partition the originally supplied `fragment_payloads`, call the
engine's single-index reconstruction with `len(data_frags[0])`, append the
result.  No `try`/`except` surrounds it: engine exceptions propagate. -/
def ECPyECLibDriver.reconLoop {E : Type} (eng : Engine E)
    (fragment_payloads : List Buf) :
    List Nat → List Buf → List EngineCall →
    Except (PyExn E) (List Buf) × List EngineCall
  | [], reconstructed_data, tr => (Except.ok reconstructed_data, tr)
  | index :: rest, reconstructed_data, tr =>
      let tr0 := tr ++ [EngineCall.getFragmentPartition fragment_payloads]
      match eng.get_fragment_partition fragment_payloads with
      | Except.error e => (Except.error (PyExn.engine e), tr0)
      | Except.ok (data_frags, parity_frags, missing_idxs) =>
          match data_frags.head? with
          | none => (Except.error PyExn.indexError, tr0)
          | some d0 =>
              let tr1 := tr0 ++
                [EngineCall.singleReconstruct data_frags parity_frags
                  missing_idxs index d0.length]
              match eng.reconstruct data_frags parity_frags missing_idxs
                  index d0.length with
              | Except.error e => (Except.error (PyExn.engine e), tr1)
              | Except.ok reconstructed =>
                  ECPyECLibDriver.reconLoop eng fragment_payloads rest
                    (reconstructed_data ++ [reconstructed]) tr1

/-- Everything observable about one `ECPyECLibDriver.reconstruct` call: its
result (or the exception it raises), the engine calls it made, and the final
values of the two caller-supplied mutable arguments
(`indexes_to_reconstruct` is sorted in place by `list.sort()`;
`fragment_payloads` is never assigned to). -/
structure ReconOutcome (E : Type) where
  result : Except (PyExn E) (List Buf)
  trace : List EngineCall
  finalIndexes : List Nat
  finalPayloads : List Buf

/-- `ECPyECLibDriver.reconstruct(fragment_payloads, indexes_to_reconstruct)`
from `core.py`: sorts `indexes_to_reconstruct` in place (Python's stable
ascending `list.sort()`, modelled by insertion sort under `≤`, which yields
the same ascending list on `Nat`), copies it, and runs the reconstruction
loop over the copy. -/
def ECPyECLibDriver.reconstruct {E : Type} (eng : Engine E)
    (fragment_payloads : List Buf) (indexes_to_reconstruct : List Nat) :
    ReconOutcome E :=
  let sorted := List.insertionSort (· ≤ ·) indexes_to_reconstruct
  let step := ECPyECLibDriver.reconLoop eng fragment_payloads sorted [] []
  ⟨step.1, step.2, sorted, fragment_payloads⟩

/-- The state `ECPyECLibDriver.__init__` leaves behind on success. -/
structure ECPyECLibDriverState (H : Type) where
  k : Nat
  m : Nat
  ec_type : String
  chksum_type : String
  inline_chksum : Nat
  algsig_chksum : Nat
  handle : H
deriving DecidableEq

/-- `ECPyECLibDriver.__init__(k, m, ec_type, chksum_type)` from `core.py`.
The two enumeration membership tests live in `ec_iface`, which is not under
`src/`; they are modelled from the spec as arbitrary membership functions
`ec_is_member` and `chksum_is_member` over the algorithm / checksum
identifiers, and (modelled from the spec) the checksum enumeration's
`inline` and `algsig` members are the strings `"inline"` and `"algsig"`.
`pyeclib_c.init` is the opaque engine constructor `engine_init`, which may
fail with an engine error (spec: fails on invalid configuration). -/
def ECPyECLibDriver.init {E H : Type}
    (ec_is_member chksum_is_member : String → Bool)
    (engine_init : Nat → Nat → String → Nat → Nat → Except E H)
    (k m : Nat) (ec_type chksum_type : String) :
    Except (PyExn E) (ECPyECLibDriverState H) :=
  if ec_is_member ec_type then
    if chksum_is_member chksum_type then
      let inline_chksum : Nat := if chksum_type = "inline" then 1 else 0
      let algsig_chksum : Nat := if chksum_type = "algsig" then 1 else 0
      match engine_init k m ec_type inline_chksum algsig_chksum with
      | Except.error e => Except.error (PyExn.engine e)
      | Except.ok h =>
          Except.ok ⟨k, m, ec_type, chksum_type, inline_chksum, algsig_chksum, h⟩
    else
      Except.error (PyExn.ec "%s is not a valid checksum type for PyECLib!")
  else
    Except.error (PyExn.ec (ec_type ++ " is not a valid EC type for PyECLib!"))

/-- Does this driver call end in a raised `ECPyECLibException`? -/
def isECException {E A : Type} : Except (PyExn E) A → Bool
  | Except.error (PyExn.ec _) => true
  | _ => false

/-- Did this driver call return normally? -/
def exOk {E A : Type} : Except E A → Bool
  | Except.ok _ => true
  | Except.error _ => false

/-- Is this engine call a phase-two call of the decode protocol (partition
or bulk reconstruction)? -/
def isPhase2Call : EngineCall → Bool
  | EngineCall.getFragmentPartition _ => true
  | EngineCall.bulkDecode _ _ _ _ => true
  | _ => false

deriving instance DecidableEq for Except

/-- C1 — the striping round-trip `decode(encode(B)) == B` FAILS on the code:
with `k = 1` and the two-byte buffer `[0, 1]`, `encode` computes
`fragment_size = 2`, `last_fragment_size = 2 - (2*1 - 1) = 1`, and returns
the single fragment `data_bytes[0:1] = [0]`, so `decode` (which accepts the
count, `1 = k`) returns `[0]`, not the original buffer `[0, 1]`. -/
theorem C1_striping_roundtrip_fails :
    ECStripingDriver.decode 1 (ECStripingDriver.encode 1 [0, 1]) =
      Except.ok [0] ∧
    ECStripingDriver.decode 1 (ECStripingDriver.encode 1 [0, 1]) ≠
      Except.ok [0, 1] := by
  constructor
  · rfl
  · decide

/-- C2 — the striping encode sizing claim FAILS on the code: with `k = 3`
and a 6-byte buffer, `encode` returns fragments of lengths `[2, 0, 0]`
(the loop slices `data_bytes[offset:fragment_size]`, so every fragment
after the first is empty, and the last slice `data_bytes[4:1]` is empty
too), so the second fragment does not have length `ceil(6/3) = 2` and the
lengths sum to `2`, not `6`. -/
theorem C2_striping_encode_sizing_fails :
    (ECStripingDriver.encode 3 [0, 1, 2, 3, 4, 5]).map List.length =
      [2, 0, 0] ∧
    ((ECStripingDriver.encode 3 [0, 1, 2, 3, 4, 5]).map List.length).sum ≠
      ([0, 1, 2, 3, 4, 5] : Buf).length := by
  constructor
  · rfl
  · decide

/-- C8 — striping decode does raise exactly when the fragment count differs
from `k`, but the two counts in the message are interpolated in SWAPPED
positions: with `k = 2` and three fragments given, the code produces
"Decode requires 3 fragments, 2 fragments were given", that is, it reports
the given count (3) as the requirement and `k` (2) as the given count,
while the claim says the message reports the required count `k` and the
given count.  The first conjunct evaluates the code at the failing input;
the others record that the raise condition itself holds there and that the
produced message differs from the message the claim describes. -/
theorem C8_striping_decode_count_message_swapped :
    ECStripingDriver.decode 2 [[0], [1], [2]] =
      Except.error "Decode requires 3 fragments, 2 fragments were given" ∧
    ([[0], [1], [2]] : List Buf).length ≠ 2 ∧
    "Decode requires 3 fragments, 2 fragments were given" ≠
      "Decode requires 2 fragments, 3 fragments were given" := by
  refine ⟨rfl, by decide, by decide⟩

/-- C9 — `ECStripingDriver.fragments_needed` is the identity: it returns
exactly the missing-index list it was given, same elements in the same
order. -/
theorem C9_striping_fragments_needed_identity (missing : List Nat) :
    ECStripingDriver.fragments_needed missing = missing :=
  rfl

/-- C7 (amended) — striping reconstruct raises if and only if the available
fragment count differs from `k`; when all `k` fragments are supplied it
succeeds, but it returns the entire available fragment list (all `k`
payloads), not one payload per requested target index. -/
theorem C7_striping_reconstruct_amended (k : Nat) (avail : List Buf)
    (missing : List Nat) :
    (exOk (ECStripingDriver.reconstruct k avail missing) = true ↔
      avail.length = k) ∧
    (avail.length = k →
      ECStripingDriver.reconstruct k avail missing = Except.ok avail) := by
  unfold ECStripingDriver.reconstruct exOk
  by_cases h : avail.length = k <;> simp [h]

/-- Witness for C7: at `k = 2`, two available fragments and one requested
index, the hypotheses of `C7_striping_reconstruct_amended` are concrete and
the call succeeds returning the full available list. -/
theorem C7_striping_reconstruct_amended_witness :
    ((exOk (ECStripingDriver.reconstruct 2 [[5], [6]] [1]) = true ↔
       ([[5], [6]] : List Buf).length = 2) ∧
     (([[5], [6]] : List Buf).length = 2 →
       ECStripingDriver.reconstruct 2 [[5], [6]] [1] =
         Except.ok [[5], [6]])) :=
  C7_striping_reconstruct_amended 2 [[5], [6]] [1]

/-- C7 counterexample — the claim as stated says a successful striping
reconstruct returns exactly `len(target_indices)` payloads: with `k = 2`,
both fragments available and a single requested index, the code returns
both payloads (the whole available list), not `1` payload. -/
theorem C7_striping_reconstruct_counterexample :
    ECStripingDriver.reconstruct 2 [[0], [1]] [0] = Except.ok [[0], [1]] ∧
    ([[0], [1]] : List Buf).length ≠ ([0] : List Nat).length := by
  refine ⟨rfl, by decide⟩

/-- A concrete codec engine used to exercise the driver on its
reconstruction path: reassembly returns the sentinel exactly on the
two-fragment input `[[1,2],[3,4]]`, partitioning yields one data fragment,
one parity fragment and one missing index, bulk decode appends a rebuilt
fragment, and single-index reconstruction returns the index as a payload. -/
def testEngine : Engine Unit where
  fragments_to_string := fun fs =>
    if fs = [[1, 2], [3, 4]] then Except.ok none
    else Except.ok (some fs.flatten)
  get_fragment_partition := fun _ => Except.ok ([[1, 2]], [[3, 4]], [0])
  decode := fun d p _ _ => Except.ok (d ++ p ++ [[5, 6]])
  reconstruct := fun _ _ _ i _ => Except.ok [i]

/-- A concrete codec engine whose reassembly always returns the sentinel
and whose every other primitive raises an engine exception. -/
def failingEngine : Engine Unit where
  fragments_to_string := fun _ => Except.ok none
  get_fragment_partition := fun _ => Except.error ()
  decode := fun _ _ _ _ => Except.error ()
  reconstruct := fun _ _ _ _ _ => Except.error ()

/-- C10 — `ECPyECLibDriver.reconstruct` sorts the caller-supplied
`indexes_to_reconstruct` list in place: after any call the caller's list is
the ascending (stable) sort of what was passed in — in particular it is
sorted and a permutation of the original — while the caller's survivor
fragment list is left unchanged. -/
theorem C10_reconstruct_sorts_indexes_in_place {E : Type} (eng : Engine E)
    (frags : List Buf) (idxs : List Nat) :
    (ECPyECLibDriver.reconstruct eng frags idxs).finalIndexes =
      List.insertionSort (· ≤ ·) idxs ∧
    List.Sorted (· ≤ ·)
      (ECPyECLibDriver.reconstruct eng frags idxs).finalIndexes ∧
    ((ECPyECLibDriver.reconstruct eng frags idxs).finalIndexes).Perm idxs ∧
    (ECPyECLibDriver.reconstruct eng frags idxs).finalPayloads = frags := by
  unfold ECPyECLibDriver.reconstruct
  exact ⟨rfl, List.sorted_insertionSort (· ≤ ·) idxs,
    List.perm_insertionSort (· ≤ ·) idxs, rfl⟩

/-- A membership test standing in for the fixed EC-type enumeration, used
to instantiate construction theorems on concrete inputs. -/
def ecTypesTest : String → Bool := fun s => s = "jerasure_rs_vand"

/-- A membership test standing in for the fixed checksum enumeration, used
to instantiate construction theorems on concrete inputs. -/
def chksumTypesTest : String → Bool :=
  fun s => s = "none" || s = "inline" || s = "algsig"

/-- A codec-engine constructor that always succeeds with handle `7`, used
to instantiate construction theorems on concrete inputs. -/
def engineInitTest : Nat → Nat → String → Nat → Nat → Except Unit Nat :=
  fun _ _ _ _ _ => Except.ok 7

/-- C6 — configuration errors are raised at construction:
`ECPyECLibDriver.__init__` raises `ECPyECLibException` exactly when the
algorithm identifier fails the EC-type membership test or the checksum mode
fails the checksum membership test (for any membership functions — the
enumerations live in `ec_iface`, outside `src/`, and are modelled from the
spec); with both memberships valid and a succeeding engine `init`,
construction succeeds with the expected state.  `ECStripingDriver.__init__`
succeeds exactly when `m = 0`. -/
theorem C6_construction_validation {E H : Type}
    (ecM chkM : String → Bool)
    (engInit : Nat → Nat → String → Nat → Nat → Except E H)
    (k m : Nat) (ec chk : String) (hh : H) (k2 m2 : Nat) :
    (isECException (ECPyECLibDriver.init ecM chkM engInit k m ec chk) = true ↔
      (ecM ec = false ∨ chkM chk = false)) ∧
    (ecM ec = true → chkM chk = true →
      engInit k m ec (if chk = "inline" then 1 else 0)
        (if chk = "algsig" then 1 else 0) = Except.ok hh →
      ECPyECLibDriver.init ecM chkM engInit k m ec chk =
        Except.ok ⟨k, m, ec, chk, (if chk = "inline" then 1 else 0),
          (if chk = "algsig" then 1 else 0), hh⟩) ∧
    (exOk (ECStripingDriver.init k2 m2) = true ↔ m2 = 0) := by
  refine ⟨?_, ?_, ?_⟩
  · by_cases h1 : ecM ec
    · by_cases h2 : chkM chk
      · cases hi : engInit k m ec (if chk = "inline" then 1 else 0)
          (if chk = "algsig" then 1 else 0) <;>
          simp [ECPyECLibDriver.init, isECException, h1, h2, hi]
      · simp [ECPyECLibDriver.init, isECException, h1,
          Bool.not_eq_true _ ▸ h2, eq_false_of_ne_true h2]
    · simp [ECPyECLibDriver.init, isECException, eq_false_of_ne_true h1]
  · intro h1 h2 h3
    simp [ECPyECLibDriver.init, h1, h2, h3]
  · by_cases hm : m2 = 0 <;> simp [ECStripingDriver.init, exOk, hm]

/-- Witness for C6: concrete membership tests, a succeeding engine
constructor, the valid configuration `(k, m) = (4, 2)` with algorithm
`jerasure_rs_vand` and checksum `none`, and the striping configuration
`(3, 0)`. -/
theorem C6_construction_validation_witness :
    ((isECException (ECPyECLibDriver.init ecTypesTest chksumTypesTest
        engineInitTest 4 2 "jerasure_rs_vand" "none") = true ↔
      (ecTypesTest "jerasure_rs_vand" = false ∨
       chksumTypesTest "none" = false)) ∧
     (ecTypesTest "jerasure_rs_vand" = true → chksumTypesTest "none" = true →
      engineInitTest 4 2 "jerasure_rs_vand"
          (if ("none" : String) = "inline" then 1 else 0)
          (if ("none" : String) = "algsig" then 1 else 0) = Except.ok 7 →
      ECPyECLibDriver.init ecTypesTest chksumTypesTest engineInitTest 4 2
          "jerasure_rs_vand" "none" =
        Except.ok ⟨4, 2, "jerasure_rs_vand", "none",
          (if ("none" : String) = "inline" then 1 else 0),
          (if ("none" : String) = "algsig" then 1 else 0), 7⟩) ∧
     (exOk (ECStripingDriver.init 3 0) = true ↔ (0 : Nat) = 0)) :=
  C6_construction_validation ecTypesTest chksumTypesTest engineInitTest 4 2
    "jerasure_rs_vand" "none" 7 3 0

/-- C3 — the erasure-coded decode is two-phase: the engine's partition and
bulk-reconstruction primitives appear in the call trace if and only if the
first reassembly call returns the needs-reconstruction sentinel; when
reassembly yields a buffer directly, that buffer is returned after the lone
reassembly call; and in the sentinel case (with the engine succeeding) the
driver partitions the held fragments, runs bulk reconstruction over exactly
the three returned partitions, and reassembles the completed fragment set
into the returned buffer. -/
theorem C3_decode_two_phase {E : Type} (eng : Engine E) (frags : List Buf)
    (b : Buf) (d0 : Buf) (ds parity : List Buf) (miss : List Nat)
    (df : List Buf) (r : Option Buf) :
    ((ECPyECLibDriver.decode eng frags).2.any isPhase2Call = true ↔
      eng.fragments_to_string frags = Except.ok none) ∧
    (eng.fragments_to_string frags = Except.ok (some b) →
      ECPyECLibDriver.decode eng frags =
        (Except.ok (some b), [EngineCall.fragmentsToString frags])) ∧
    (eng.fragments_to_string frags = Except.ok none →
      eng.get_fragment_partition frags = Except.ok (d0 :: ds, parity, miss) →
      eng.decode (d0 :: ds) parity miss d0.length = Except.ok df →
      eng.fragments_to_string df = Except.ok r →
      ECPyECLibDriver.decode eng frags =
        (Except.ok r,
         [EngineCall.fragmentsToString frags,
          EngineCall.getFragmentPartition frags,
          EngineCall.bulkDecode (d0 :: ds) parity miss d0.length,
          EngineCall.fragmentsToString df])) := by
  refine ⟨?_, ?_, ?_⟩
  · cases h : eng.fragments_to_string frags with
    | error e => simp [ECPyECLibDriver.decode, h, isPhase2Call]
    | ok o =>
      cases o with
      | some s => simp [ECPyECLibDriver.decode, h, isPhase2Call]
      | none =>
        simp only [ECPyECLibDriver.decode, h, iff_true]
        cases hg : eng.get_fragment_partition frags with
        | error e => simp [isPhase2Call]
        | ok t =>
          obtain ⟨d, p2, m2⟩ := t
          cases d with
          | nil => simp [isPhase2Call]
          | cons e0 es =>
            cases hd : eng.decode (e0 :: es) p2 m2 e0.length with
            | error e => simp [isPhase2Call, hd]
            | ok df2 =>
              cases hf : eng.fragments_to_string df2 with
              | error e => simp [isPhase2Call, hd, hf]
              | ok r2 => simp [isPhase2Call, hd, hf]
  · intro h
    simp [ECPyECLibDriver.decode, h]
  · intro h1 h2 h3 h4
    simp [ECPyECLibDriver.decode, h1, h2, h3, h4]

/-- Witness for C3: `testEngine` on the fragment list `[[1,2],[3,4]]`
exercises the reconstruction phase end to end. -/
theorem C3_decode_two_phase_witness :
    (((ECPyECLibDriver.decode testEngine [[1, 2], [3, 4]]).2.any isPhase2Call
        = true ↔
      testEngine.fragments_to_string [[1, 2], [3, 4]] = Except.ok none) ∧
     (testEngine.fragments_to_string [[1, 2], [3, 4]] = Except.ok (some []) →
      ECPyECLibDriver.decode testEngine [[1, 2], [3, 4]] =
        (Except.ok (some []),
         [EngineCall.fragmentsToString [[1, 2], [3, 4]]])) ∧
     (testEngine.fragments_to_string [[1, 2], [3, 4]] = Except.ok none →
      testEngine.get_fragment_partition [[1, 2], [3, 4]] =
        Except.ok ([1, 2] :: [], [[3, 4]], [0]) →
      testEngine.decode ([1, 2] :: []) [[3, 4]] [0] ([1, 2] : Buf).length =
        Except.ok [[1, 2], [3, 4], [5, 6]] →
      testEngine.fragments_to_string [[1, 2], [3, 4], [5, 6]] =
        Except.ok (some [1, 2, 3, 4, 5, 6]) →
      ECPyECLibDriver.decode testEngine [[1, 2], [3, 4]] =
        (Except.ok (some [1, 2, 3, 4, 5, 6]),
         [EngineCall.fragmentsToString [[1, 2], [3, 4]],
          EngineCall.getFragmentPartition [[1, 2], [3, 4]],
          EngineCall.bulkDecode ([1, 2] :: []) [[3, 4]] [0]
            ([1, 2] : Buf).length,
          EngineCall.fragmentsToString [[1, 2], [3, 4], [5, 6]]]))) :=
  C3_decode_two_phase testEngine [[1, 2], [3, 4]] [] [1, 2] [] [[3, 4]] [0]
    [[1, 2], [3, 4], [5, 6]] (some [1, 2, 3, 4, 5, 6])

/-- When the engine's partition of the original survivors is fixed and
every single-index reconstruction over it succeeds, the reconstruction loop
of `ECPyECLibDriver.reconstruct` accumulates one payload per index in
order, and its trace re-partitions the originally supplied survivors
before every single-index call. -/
theorem ECPyECLibDriver.reconLoop_ok {E : Type} (eng : Engine E)
    (frags : List Buf) (d0 : Buf) (ds parity : List Buf) (miss : List Nat)
    (f : Nat → Buf)
    (hp : eng.get_fragment_partition frags =
      Except.ok (d0 :: ds, parity, miss))
    (l : List Nat) :
    ∀ (acc : List Buf) (tr : List EngineCall),
      (∀ i ∈ l, eng.reconstruct (d0 :: ds) parity miss i d0.length =
        Except.ok (f i)) →
      ECPyECLibDriver.reconLoop eng frags l acc tr =
        (Except.ok (acc ++ l.map f),
         tr ++ l.flatMap fun i =>
           [EngineCall.getFragmentPartition frags,
            EngineCall.singleReconstruct (d0 :: ds) parity miss i
              d0.length]) := by
  induction l with
  | nil => intro acc tr _; simp [ECPyECLibDriver.reconLoop]
  | cons i rest ih =>
    intro acc tr h
    have hi := h i (List.mem_cons_self i rest)
    simp only [ECPyECLibDriver.reconLoop, hp, List.head?, hi]
    rw [ih _ _ (fun j hj => h j (List.mem_cons_of_mem i hj))]
    simp

/-- C4 — the erasure-coded reconstruct protocol: target indices are
processed in ascending order; for every target the data/parity/missing
partition is recomputed from the originally supplied survivor list (each
single-index engine call in the trace is immediately preceded by a
partition call on the original survivors, and earlier reconstructed
payloads never enter later calls); the result is one payload per requested
index, ordered by ascending target index. -/
theorem C4_reconstruct_protocol {E : Type} (eng : Engine E)
    (frags : List Buf) (idxs : List Nat) (d0 : Buf) (ds parity : List Buf)
    (miss : List Nat) (f : Nat → Buf)
    (hp : eng.get_fragment_partition frags =
      Except.ok (d0 :: ds, parity, miss))
    (hr : ∀ i ∈ List.insertionSort (· ≤ ·) idxs,
      eng.reconstruct (d0 :: ds) parity miss i d0.length =
        Except.ok (f i)) :
    (ECPyECLibDriver.reconstruct eng frags idxs).result =
      Except.ok ((List.insertionSort (· ≤ ·) idxs).map f) ∧
    (ECPyECLibDriver.reconstruct eng frags idxs).trace =
      (List.insertionSort (· ≤ ·) idxs).flatMap (fun i =>
        [EngineCall.getFragmentPartition frags,
         EngineCall.singleReconstruct (d0 :: ds) parity miss i
           d0.length]) ∧
    List.Sorted (· ≤ ·) (List.insertionSort (· ≤ ·) idxs) ∧
    (List.insertionSort (· ≤ ·) idxs).Perm idxs ∧
    ((List.insertionSort (· ≤ ·) idxs).map f).length = idxs.length := by
  have key := ECPyECLibDriver.reconLoop_ok eng frags d0 ds parity miss f hp
    (List.insertionSort (· ≤ ·) idxs) [] [] hr
  unfold ECPyECLibDriver.reconstruct
  refine ⟨?_, ?_, List.sorted_insertionSort (· ≤ ·) idxs,
    List.perm_insertionSort (· ≤ ·) idxs, ?_⟩
  · simp [key]
  · simp [key]
  · simp [List.length_insertionSort]

/-- Witness for C4: `testEngine` with targets requested out of order as
`[1, 0]`; they are processed as `[0, 1]` and yield payloads `[[0], [1]]`. -/
theorem C4_reconstruct_protocol_witness :
    ((ECPyECLibDriver.reconstruct testEngine [[1, 2], [3, 4]] [1, 0]).result =
      Except.ok ((List.insertionSort (· ≤ ·) [1, 0]).map fun i => [i]) ∧
     (ECPyECLibDriver.reconstruct testEngine [[1, 2], [3, 4]] [1, 0]).trace =
      (List.insertionSort (· ≤ ·) [1, 0]).flatMap (fun i =>
        [EngineCall.getFragmentPartition [[1, 2], [3, 4]],
         EngineCall.singleReconstruct ([1, 2] :: []) [[3, 4]] [0] i
           ([1, 2] : Buf).length]) ∧
     List.Sorted (· ≤ ·) (List.insertionSort (· ≤ ·) [1, 0]) ∧
     (List.insertionSort (· ≤ ·) ([1, 0] : List Nat)).Perm [1, 0] ∧
     ((List.insertionSort (· ≤ ·) ([1, 0] : List Nat)).map
        fun i => ([i] : Buf)).length = ([1, 0] : List Nat).length) :=
  C4_reconstruct_protocol testEngine [[1, 2], [3, 4]] [1, 0] [1, 2] []
    [[3, 4]] [0] (fun i => [i]) (by decide) (by decide)

/-- C5 counterexample — the claim that every engine exception in decode or
reconstruct is re-raised as an `ECPyECLibException` is FALSE: with an
engine whose reassembly returns the sentinel and whose partition primitive
raises, both `decode` and `reconstruct` end in the raw engine exception
(the partition call sits outside decode's `try`, and `reconstruct` has no
`try` at all), not in an `ECPyECLibException`. -/
theorem C5_error_wrapping_counterexample :
    (ECPyECLibDriver.decode failingEngine [[0]]).1 =
      Except.error (PyExn.engine ()) ∧
    isECException (ECPyECLibDriver.decode failingEngine [[0]]).1 = false ∧
    (ECPyECLibDriver.reconstruct failingEngine [[0]] [0]).result =
      Except.error (PyExn.engine ()) ∧
    isECException
      (ECPyECLibDriver.reconstruct failingEngine [[0]] [0]).result =
      false := by
  refine ⟨rfl, rfl, rfl, rfl⟩

/-- C5 (amended) — only the initial reassembly call of
`ECPyECLibDriver.decode` is guarded: an exception there is re-raised as
`ECPyECLibException("Error in ECPyECLibDriver.decode")`, while engine
exceptions raised during decode's reconstruction phase (partition, bulk
decode, or the final reassembly) and during `ECPyECLibDriver.reconstruct`
(whose loop is unguarded) propagate to the caller unwrapped. -/
theorem C5_error_wrapping_amended {E : Type} (eng : Engine E)
    (frags : List Buf) (e : E) (d0 : Buf) (ds parity : List Buf)
    (miss : List Nat) (df : List Buf) (idxs : List Nat) (i0 : Nat)
    (rest : List Nat) :
    (eng.fragments_to_string frags = Except.error e →
      (ECPyECLibDriver.decode eng frags).1 =
        Except.error (PyExn.ec "Error in ECPyECLibDriver.decode")) ∧
    (eng.fragments_to_string frags = Except.ok none →
      eng.get_fragment_partition frags = Except.error e →
      (ECPyECLibDriver.decode eng frags).1 =
        Except.error (PyExn.engine e)) ∧
    (eng.fragments_to_string frags = Except.ok none →
      eng.get_fragment_partition frags = Except.ok (d0 :: ds, parity, miss) →
      eng.decode (d0 :: ds) parity miss d0.length = Except.error e →
      (ECPyECLibDriver.decode eng frags).1 =
        Except.error (PyExn.engine e)) ∧
    (eng.fragments_to_string frags = Except.ok none →
      eng.get_fragment_partition frags = Except.ok (d0 :: ds, parity, miss) →
      eng.decode (d0 :: ds) parity miss d0.length = Except.ok df →
      eng.fragments_to_string df = Except.error e →
      (ECPyECLibDriver.decode eng frags).1 =
        Except.error (PyExn.engine e)) ∧
    (List.insertionSort (· ≤ ·) idxs = i0 :: rest →
      eng.get_fragment_partition frags = Except.error e →
      (ECPyECLibDriver.reconstruct eng frags idxs).result =
        Except.error (PyExn.engine e)) := by
  refine ⟨?_, ?_, ?_, ?_, ?_⟩
  · intro h1
    simp [ECPyECLibDriver.decode, h1]
  · intro h1 h2
    simp [ECPyECLibDriver.decode, h1, h2]
  · intro h1 h2 h3
    simp [ECPyECLibDriver.decode, h1, h2, h3]
  · intro h1 h2 h3 h4
    simp [ECPyECLibDriver.decode, h1, h2, h3, h4]
  · intro h1 h2
    unfold ECPyECLibDriver.reconstruct
    simp [h1, ECPyECLibDriver.reconLoop, h2]

/-- Witness for C5's amended statement: `failingEngine` realises the
unwrapped-propagation branches (partition raising inside decode's second
phase and inside reconstruct) on concrete inputs. -/
theorem C5_error_wrapping_amended_witness :
    ((failingEngine.fragments_to_string [[0]] = Except.error () →
      (ECPyECLibDriver.decode failingEngine [[0]]).1 =
        Except.error (PyExn.ec "Error in ECPyECLibDriver.decode")) ∧
     (failingEngine.fragments_to_string [[0]] = Except.ok none →
      failingEngine.get_fragment_partition [[0]] = Except.error () →
      (ECPyECLibDriver.decode failingEngine [[0]]).1 =
        Except.error (PyExn.engine ())) ∧
     (failingEngine.fragments_to_string [[0]] = Except.ok none →
      failingEngine.get_fragment_partition [[0]] =
        Except.ok ([] :: [], [], []) →
      failingEngine.decode ([] :: []) [] [] ([] : Buf).length =
        Except.error () →
      (ECPyECLibDriver.decode failingEngine [[0]]).1 =
        Except.error (PyExn.engine ())) ∧
     (failingEngine.fragments_to_string [[0]] = Except.ok none →
      failingEngine.get_fragment_partition [[0]] =
        Except.ok ([] :: [], [], []) →
      failingEngine.decode ([] :: []) [] [] ([] : Buf).length =
        Except.ok [] →
      failingEngine.fragments_to_string [] = Except.error () →
      (ECPyECLibDriver.decode failingEngine [[0]]).1 =
        Except.error (PyExn.engine ())) ∧
     (List.insertionSort (· ≤ ·) [0] = 0 :: [] →
      failingEngine.get_fragment_partition [[0]] = Except.error () →
      (ECPyECLibDriver.reconstruct failingEngine [[0]] [0]).result =
        Except.error (PyExn.engine ()))) :=
  C5_error_wrapping_amended failingEngine [[0]] () [] [] [] [] [] [0] 0 []
